import Mathlib

/-!
# Shallow embedding of `polymarket_monitor.py`

This file models the anomaly-detection pipeline of the repository's single
source file `src/polymarket_monitor.py`: the SQLite-backed dedup ledger,
wallet-profile cache and cluster-hit log, the wallet enrichment fetches, the
pure scoring function, and the per-trade body of the main polling loop.

Conventions of the embedding:
* Python floats are modelled as rationals (`ℚ`), Python ints as `ℤ`.
* A Python value that may fail numeric conversion (`float(x)` / `int(x)`
  inside a `try`) is modelled by `Parsed α`: either a valid value or a value
  whose conversion raises.
* An HTTP call (`http_get`) either returns a parsed body or raises; a raised
  exception is `Except.error ()`.  Exception propagation through a caller
  without a `try`/`except` is the `Except` monad's bind.
* The SQLite tables are lists of rows; `INSERT OR REPLACE` on a
  primary-keyed table deletes the rows with the same key and appends the new
  row; `SELECT COUNT(*) ... WHERE` is `List.countP`.
* The current wall clock `time.time()` is an explicit parameter `now : ℤ`
  (the source truncates it with `int(...)` at each use site).
-/

namespace PolymarketMonitor

/-- A Python value passed to a numeric conversion: either the conversion
succeeds with `a`, or it raises (and the surrounding `try`/`except` decides
what happens). -/
inductive Parsed (α : Type) where
  | valid (a : α)
  | invalid
deriving DecidableEq, Repr

/-! ## Config constants (source lines 47-85) -/

def POLL_SECONDS : ℤ := 8
def TRADES_LIMIT : ℤ := 100
def MIN_CASH_FILTER : ℤ := 6000
def FRESH_DAYS : ℤ := 14
def LOW_ACTIVITY_MARKETS : ℤ := 6
def CLUSTER_MINUTES : ℤ := 120
def CLUSTER_COUNT : ℕ := 2
def ALERT_SCORE_THRESHOLD : ℤ := 6
def W_FRESH : ℤ := 3
def W_LOW_ACTIVITY : ℤ := 2
def W_BIG_TRADE : ℤ := 2
def W_CLUSTER : ℤ := 2
def BIG_TRADE_TIER_1 : ℤ := 10000
def BIG_TRADE_TIER_2 : ℤ := 25000
def INCLUDE_KEYWORDS : List String := []
def EXCLUDE_KEYWORDS : List String := ["sports"]

/-! ## Data structures (source lines 92-120) -/

/-- The `Trade` dataclass.  `size` and `price` are "floats" that may in fact be
malformed (the dataclass does not enforce the annotation; `est_cash` applies
`float(...)` under a `try`). -/
structure Trade where
  proxy_wallet : String
  side : String
  condition_id : String
  size : Parsed ℚ
  price : Parsed ℚ
  timestamp : ℤ
  title : String
  slug : String
  outcome : String
  tx_hash : String
deriving DecidableEq, Repr

/-- Property `Trade.est_cash` (source lines 105-112):
`try: return float(self.size) * float(self.price) except: return 0.0`. -/
def Trade.est_cash (t : Trade) : ℚ :=
  match t.size, t.price with
  | Parsed.valid s, Parsed.valid p => s * p
  | _, _ => 0

/-- The `WalletProfile` dataclass (source lines 115-120). -/
structure WalletProfile where
  wallet : String
  traded_markets : Option ℤ
  first_seen_ts : Option ℤ
  recent_cash_24h : Option ℚ
deriving DecidableEq, Repr

/-! ## Scoring + filtering (source lines 356-402) -/

/-- Lowercase a string as Python `str.lower()` does on ASCII text. -/
def lowerChars (s : String) : List Char :=
  s.data.map Char.toLower

/-- Tests whether `needle` occurs at the front of `hay`. -/
def listStarts : List Char → List Char → Bool
  | _, [] => true
  | [], _ :: _ => false
  | c :: cs, d :: ds => c == d && listStarts cs ds

/-- Python substring test `needle in hay`. -/
def containsSub : List Char → List Char → Bool
  | hay, needle =>
    listStarts hay needle ||
      match hay with
      | [] => false
      | _ :: rest => containsSub rest needle

/-- Function `title_allowed` (source lines 356-364): with `INCLUDE_KEYWORDS` empty the
include check is skipped; excluded when any exclude keyword occurs in the
lowercased title. -/
def title_allowed (title : String) : Bool :=
  let t := lowerChars title
  if INCLUDE_KEYWORDS ≠ [] ∧
      ¬ (INCLUDE_KEYWORDS.any fun k => containsSub t (lowerChars k)) then
    false
  else if EXCLUDE_KEYWORDS ≠ [] ∧
      (EXCLUDE_KEYWORDS.any fun k => containsSub t (lowerChars k)) then
    false
  else
    true

/-- Function `days_since` (source lines 367-370).  Note the Python truthiness test
`if not ts`: both `None` and the integer `0` yield `None`.  Depends on the
wall clock `now` (`time.time()` in the source). -/
def days_since (ts : Option ℤ) (now : ℤ) : Option ℚ :=
  match ts with
  | none => none
  | some v => if v = 0 then none else some (((now : ℚ) - (v : ℚ)) / 86400)

/-- Structured reason tags; each carries exactly the data interpolated into
the source's reason strings (source lines 381, 386, 392, 395, 400). -/
inductive Reason where
  | fresh_wallet (age_days : ℚ)
  | low_activity (traded : ℤ)
  | big_trade (est_cash : ℚ)
  | very_big_trade
  | cluster (hits : ℕ)
deriving DecidableEq, Repr

/-- Function `score_trade` (source lines 373-402).  The sequential accumulation of
`score` and `reasons` is modelled with shadowing `let`s in source order:
fresh wallet, low activity, big-trade tier 1, tier 2, cluster.  The wall
clock enters through `days_since`. -/
def score_trade (t : Trade) (p : WalletProfile) (cluster_hits : ℕ) (now : ℤ) :
    ℤ × List Reason :=
  let score : ℤ := 0
  let reasons : List Reason := []
  let age_days := days_since p.first_seen_ts now
  let sr :=
    match age_days with
    | some a =>
        if a ≤ (FRESH_DAYS : ℚ) then
          (score + W_FRESH, reasons ++ [Reason.fresh_wallet a])
        else (score, reasons)
    | none => (score, reasons)
  let sr :=
    match p.traded_markets with
    | some m =>
        if m ≤ LOW_ACTIVITY_MARKETS then
          (sr.1 + W_LOW_ACTIVITY, sr.2 ++ [Reason.low_activity m])
        else sr
    | none => sr
  let est_cash := t.est_cash
  let sr :=
    if (BIG_TRADE_TIER_1 : ℚ) ≤ est_cash then
      (sr.1 + W_BIG_TRADE, sr.2 ++ [Reason.big_trade est_cash])
    else sr
  let sr :=
    if (BIG_TRADE_TIER_2 : ℚ) ≤ est_cash then
      (sr.1 + 1, sr.2 ++ [Reason.very_big_trade])
    else sr
  let sr :=
    if CLUSTER_COUNT ≤ cluster_hits then
      (sr.1 + W_CLUSTER, sr.2 ++ [Reason.cluster cluster_hits])
    else sr
  sr

/-! ## SQLite persistence (source lines 127-213) -/

/-- A row of the `seen_trades` table (`tx_hash` is the PRIMARY KEY). -/
structure SeenRow where
  tx_hash : String
  timestamp : ℤ
  wallet : String
  condition_id : String
deriving DecidableEq, Repr

/-- A row of the `wallet_cache` table (`wallet` is the PRIMARY KEY); every
non-key column is nullable. -/
structure CacheRow where
  traded_markets : Option ℤ
  first_seen_ts : Option ℤ
  recent_cash_24h : Option ℚ
  updated_at : Option ℤ
deriving DecidableEq, Repr

/-- The SQLite database: the three tables created by `db_connect`.
`wallet_hits` rows are `(wallet, hit_ts)`; the AUTOINCREMENT id is the list
position. -/
structure DB where
  seen_trades : List SeenRow
  wallet_cache : List (String × CacheRow)
  wallet_hits : List (String × ℤ)
deriving DecidableEq, Repr

/-- Function `db_connect` (source lines 127-154) on a fresh path: three empty tables. -/
def db_connect : DB := ⟨[], [], []⟩

/-- Function `db_seen_trade` (source lines 157-159): `SELECT 1 FROM seen_trades WHERE
tx_hash = ?` returns a row iff one exists. -/
def db_seen_trade (conn : DB) (tx_hash : String) : Bool :=
  conn.seen_trades.any fun r => r.tx_hash == tx_hash

/-- Function `db_mark_trade_seen` (source lines 162-167): `INSERT OR REPLACE` on the
primary key `tx_hash` deletes any row with the same key and appends the new
row; it never errors on a duplicate key. -/
def db_mark_trade_seen (conn : DB) (t : Trade) : DB :=
  { conn with
    seen_trades :=
      (conn.seen_trades.filter fun r => r.tx_hash ≠ t.tx_hash) ++
        [⟨t.tx_hash, t.timestamp, t.proxy_wallet, t.condition_id⟩] }

/-- Number of `seen_trades` rows carrying a given trade identifier. -/
def seenRowCount (conn : DB) (tx_hash : String) : ℕ :=
  conn.seen_trades.countP fun r => r.tx_hash == tx_hash

/-- Function `db_get_wallet_cache` (source lines 170-183).  Returns the cached profile
when a row exists, its `updated_at` is not NULL, and `now - updated_at ≤
max_age_seconds`; otherwise `none`.  `max_age_seconds` defaults to `6 * 3600`
at the Python call sites. -/
def db_get_wallet_cache (conn : DB) (wallet : String) (now : ℤ)
    (max_age_seconds : ℤ) : Option WalletProfile :=
  match conn.wallet_cache.find? (fun row => row.1 == wallet) with
  | none => none
  | some (_, row) =>
    match row.updated_at with
    | some u =>
        if now - u ≤ max_age_seconds then
          some ⟨wallet, row.traded_markets, row.first_seen_ts,
                row.recent_cash_24h⟩
        else none
    | none => none

/-- Function `db_set_wallet_cache` (source lines 186-200): `INSERT OR REPLACE` keyed on
`wallet`, stamping `updated_at = int(time.time())`. -/
def db_set_wallet_cache (conn : DB) (profile : WalletProfile) (now : ℤ) : DB :=
  { conn with
    wallet_cache :=
      (conn.wallet_cache.filter fun row => row.1 ≠ profile.wallet) ++
        [(profile.wallet,
          ⟨profile.traded_markets, profile.first_seen_ts,
           profile.recent_cash_24h, some now⟩)] }

/-- Function `db_add_wallet_hit` (source lines 203-205): plain `INSERT`. -/
def db_add_wallet_hit (conn : DB) (wallet : String) (hit_ts : ℤ) : DB :=
  { conn with wallet_hits := conn.wallet_hits ++ [(wallet, hit_ts)] }

/-- Function `db_count_wallet_hits` (source lines 208-213): `SELECT COUNT(*) FROM
wallet_hits WHERE wallet = ? AND hit_ts >= ?` — the window-start comparison is
inclusive, with no upper bound. -/
def db_count_wallet_hits (conn : DB) (wallet : String) (since_ts : ℤ) : ℕ :=
  conn.wallet_hits.countP fun h => h.1 == wallet && decide (since_ts ≤ h.2)

/-! ## Polymarket API calls (source lines 224-349)

`http_get` either raises (`requests` exception or `raise_for_status`) or
returns a parsed JSON body; the body shapes below carry exactly the fields
each fetcher reads. -/

/-- An HTTP response: `Except.error ()` models a raised transport/HTTP-status
exception, `Except.ok body` a 2xx response with parsed body. -/
def HttpResult (α : Type) : Type := Except Unit α

/-- Body of `/traded` as read by `fetch_traded_markets_count`: `none` when the
response is not a dict containing the key `"traded"`; otherwise the value
passed to `int(...)`. -/
def TradedBody : Type := Option (Parsed ℤ)

/-- Body of the ascending `/activity` query as read by
`fetch_wallet_first_seen_ts`: `none` when the response is not a list; else the
rows, each reduced to its `"timestamp"` field as passed to `int(...)` (`none`
when the key is absent, so `int(None)` raises). -/
def ActivityAscBody : Type := Option (List (Option (Parsed ℤ)))

/-- Body of the descending `/activity` query as read by
`fetch_wallet_recent_cash_24h`: `none` when the response is not a list; else
the rows, each reduced to its `"usdcSize"` field as passed to `float(...)`. -/
def ActivityDescBody : Type := Option (List (Option (Parsed ℚ)))

/-- The pure tail of `fetch_traded_markets_count` (source lines 266-274) after
`http_get` returned `data`: `int(data["traded"])` when present and parseable,
else `None`. -/
def parse_traded_markets (data : TradedBody) : Option ℤ :=
  match data with
  | some (Parsed.valid n) => some n
  | _ => none

/-- Function `fetch_traded_markets_count` (source lines 266-274): the `http_get`
exception, if any, propagates (there is no `try` around the call). -/
def fetch_traded_markets_count (resp : HttpResult TradedBody) :
    Except Unit (Option ℤ) := do
  let data ← resp
  pure (parse_traded_markets data)

/-- The pure tail of `fetch_wallet_first_seen_ts` (source lines 277-296):
`int(data[0]["timestamp"])` when the body is a non-empty list and the
conversion succeeds, else `None`. -/
def parse_first_seen (data : ActivityAscBody) : Option ℤ :=
  match data with
  | some (some (Parsed.valid n) :: _) => some n
  | _ => none

/-- Function `fetch_wallet_first_seen_ts` (source lines 277-296). -/
def fetch_wallet_first_seen_ts (resp : HttpResult ActivityAscBody) :
    Except Unit (Option ℤ) := do
  let data ← resp
  pure (parse_first_seen data)

/-- The pure tail of `fetch_wallet_recent_cash_24h` (source lines 299-330):
sum the parseable `usdcSize` values in row order; `None` when the body is not
a list or no row contributed. -/
def parse_recent_cash (data : ActivityDescBody) : Option ℚ :=
  match data with
  | none => none
  | some rows =>
    let acc := rows.foldl
      (fun (acc : ℚ × Bool) usdc =>
        match usdc with
        | some (Parsed.valid q) => (acc.1 + q, true)
        | _ => acc)
      ((0 : ℚ), false)
    if acc.2 then some acc.1 else none

/-- Function `fetch_wallet_recent_cash_24h` (source lines 299-330). -/
def fetch_wallet_recent_cash_24h (resp : HttpResult ActivityDescBody) :
    Except Unit (Option ℚ) := do
  let data ← resp
  pure (parse_recent_cash data)

/-- The external world for one wallet enrichment: the three HTTP responses
the three fetchers would receive. -/
structure FetchEnv where
  tradedResp : HttpResult TradedBody
  activityAscResp : HttpResult ActivityAscBody
  activityDescResp : HttpResult ActivityDescBody

/-- Function `get_wallet_profile` (source lines 333-349).  Cache hit short-circuits
(`db_get_wallet_cache` with its default `max_age_seconds = 6 * 3600`).  On a
miss the three fetches run in sequence with no `try`/`except`: an exception
from any one aborts the refresh, skipping the remaining fetches and the
`db_set_wallet_cache` write. -/
def get_wallet_profile (conn : DB) (env : FetchEnv) (now : ℤ)
    (wallet : String) : Except Unit (WalletProfile × DB) :=
  match db_get_wallet_cache conn wallet now (6 * 3600) with
  | some cached => Except.ok (cached, conn)
  | none => do
    let traded ← fetch_traded_markets_count env.tradedResp
    let first_seen ← fetch_wallet_first_seen_ts env.activityAscResp
    let recent_cash_24h ← fetch_wallet_recent_cash_24h env.activityDescResp
    let profile : WalletProfile := ⟨wallet, traded, first_seen, recent_cash_24h⟩
    pure (profile, db_set_wallet_cache conn profile now)

/-! ## Main loop, per-trade body (source lines 464-498) -/

/-- What `format_alert`/dispatch receive when an alert fires. -/
structure AlertData where
  trade : Trade
  profile : WalletProfile
  score : ℤ
  reasons : List Reason
  cluster_hits : ℕ
deriving Repr

/-- The body of `for t in trades:` in `main` (source lines 464-498).  The
guard on source line 465 is dead code (`cond if False else False` is always
`False`), so the live checks are: empty `tx_hash` or `proxy_wallet`, the
title policy, and the dedup ledger — each `continue`s with the database
untouched.  A surviving trade records a cluster hit at its own event
timestamp, counts hits from `now - CLUSTER_MINUTES*60`, is enriched (which
may raise and abort the cycle), scored, alerted when the score reaches the
threshold, and finally marked seen. -/
def process_one (conn : DB) (env : FetchEnv) (now : ℤ) (t : Trade) :
    Except Unit (DB × Option AlertData) :=
  if t.tx_hash = "" ∨ t.proxy_wallet = "" then Except.ok (conn, none)
  else if ¬ title_allowed t.title then Except.ok (conn, none)
  else if db_seen_trade conn t.tx_hash then Except.ok (conn, none)
  else do
    let conn := db_add_wallet_hit conn t.proxy_wallet t.timestamp
    let window_start := now - CLUSTER_MINUTES * 60
    let cluster_hits := db_count_wallet_hits conn t.proxy_wallet window_start
    let (profile, conn) ← get_wallet_profile conn env now t.proxy_wallet
    let (score, reasons) := score_trade t profile cluster_hits now
    let alert :=
      if ALERT_SCORE_THRESHOLD ≤ score then
        some (⟨t, profile, score, reasons, cluster_hits⟩ : AlertData)
      else none
    pure (db_mark_trade_seen conn t, alert)

/-! ## Concrete instances for witnesses and counterexamples -/

/-- The trade of the spec's example scenario (§8): `size=1000, price=20`. -/
def exampleTrade : Trade :=
  ⟨"0xwallet1", "BUY", "0xcond1", Parsed.valid 1000, Parsed.valid 20,
   999 * 86400, "Will the example happen?", "example-slug", "Yes", "0xtx1"⟩

/-- A reference wall-clock instant for the example scenario. -/
def exampleNow : ℤ := 1000 * 86400

/-- The profile of the spec's example scenario: 3 markets traded, first
activity five days before `exampleNow`. -/
def exampleProfile : WalletProfile :=
  ⟨"0xwallet1", some 3, some (exampleNow - 5 * 86400), none⟩

/-- A trade whose market title trips the `EXCLUDE_KEYWORDS` policy. -/
def sportsTrade : Trade :=
  ⟨"0xwallet2", "SELL", "0xcond2", Parsed.valid 10, Parsed.valid 1, 500,
   "NBA sports champion", "nba", "No", "0xtx2"⟩

/-- A trade with negative (but well-formed) size. -/
def negTrade : Trade :=
  ⟨"0xwallet3", "BUY", "0xcond3", Parsed.valid (-1000), Parsed.valid (1 / 2),
   100, "Some market", "some-market", "Yes", "0xtx3"⟩

/-- A trade whose size fails the `float(...)` conversion in `est_cash`. -/
def malformedTrade : Trade :=
  ⟨"0xwallet4", "BUY", "0xcond4", Parsed.invalid, Parsed.valid 3,
   100, "Other market", "other-market", "Yes", "0xtx4"⟩

/-- An enrichment environment in which all three HTTP calls succeed with
well-formed bodies. -/
def exampleEnv : FetchEnv :=
  ⟨Except.ok (some (Parsed.valid 3)),
   Except.ok (some [some (Parsed.valid 86400)]),
   Except.ok (some [some (Parsed.valid 7)])⟩

/-- An environment in which the first enrichment call (`/traded`) raises. -/
def envHttpFail : FetchEnv :=
  ⟨Except.error (),
   Except.ok (some [some (Parsed.valid 86400)]),
   Except.ok (some [some (Parsed.valid 7)])⟩

/-- An environment in which the second enrichment call raises after the
first succeeded. -/
def envMidFail : FetchEnv :=
  ⟨Except.ok (some (Parsed.valid 3)),
   Except.error (),
   Except.ok (some [some (Parsed.valid 7)])⟩

/-- A database holding one wallet-cache row written at time `100`. -/
def cachedConn : DB :=
  ⟨[], [("0xw", ⟨some 9, some 86400, some 5, some 100⟩)], []⟩

end PolymarketMonitor

namespace PolymarketMonitor

/-! ## Claims -/

/-- Effect of one `INSERT OR REPLACE` on the per-identifier row count of
`seen_trades`: the written identifier ends with exactly one row, every other
identifier keeps its count. -/
lemma seenRowCount_mark (conn : DB) (t : Trade) (tx : String) :
    seenRowCount (db_mark_trade_seen conn t) tx =
      if tx = t.tx_hash then 1 else seenRowCount conn tx := by
  unfold seenRowCount db_mark_trade_seen
  simp only [List.countP_append, List.countP_cons, List.countP_nil,
    List.countP_filter]
  by_cases hh : tx = t.tx_hash
  · rw [if_pos hh]
    have h0 : List.countP
        (fun r => r.tx_hash == tx && decide (r.tx_hash ≠ t.tx_hash))
        conn.seen_trades = 0 := by
      rw [List.countP_eq_zero]
      intro a _
      simp only [Bool.and_eq_true, beq_iff_eq, decide_eq_true_eq, ne_eq,
        not_and]
      intro ha hne
      exact hne (ha.trans hh)
    rw [h0]
    have h1 : (t.tx_hash == tx) = true := by
      simp [beq_iff_eq, hh.symm]
    simp [h1]
  · rw [if_neg hh]
    have h3 : List.countP
        (fun r => r.tx_hash == tx && decide (r.tx_hash ≠ t.tx_hash))
        conn.seen_trades =
        List.countP (fun r => r.tx_hash == tx) conn.seen_trades := by
      apply List.countP_congr
      intro r _
      simp only [Bool.and_eq_true, beq_iff_eq, decide_eq_true_eq, ne_eq,
        and_iff_left_iff_imp]
      intro hr hc
      exact hh (hr ▸ hc ▸ rfl)
    rw [h3]
    have h1 : (t.tx_hash == tx) = false := by
      simp only [beq_eq_false_iff_ne, ne_eq]
      exact fun hc => hh hc.symm
    simp [h1]

/-- C4: the dedup ledger keeps at most one row per trade identifier: the
at-most-once bound is preserved by `db_mark_trade_seen` from any state,
every ledger reachable from `db_connect` by a sequence of `mark_seen`
operations satisfies it, and a repeated `mark_seen` of the same trade is an
idempotent replace (no duplicate row, no error — the operation is total). -/
theorem seen_trades_at_most_once :
    (∀ (conn : DB) (t : Trade) (h : String),
        seenRowCount conn h ≤ 1 →
          seenRowCount (db_mark_trade_seen conn t) h ≤ 1) ∧
    (∀ (trades : List Trade) (h : String),
        seenRowCount (trades.foldl db_mark_trade_seen db_connect) h ≤ 1) ∧
    (∀ (conn : DB) (t : Trade),
        db_mark_trade_seen (db_mark_trade_seen conn t) t =
          db_mark_trade_seen conn t) := by
  have hmark : ∀ (conn : DB) (t : Trade) (h : String),
      seenRowCount conn h ≤ 1 →
        seenRowCount (db_mark_trade_seen conn t) h ≤ 1 := by
    intro conn t h hle
    rw [seenRowCount_mark]
    by_cases hh : h = t.tx_hash
    · simp [hh]
    · simpa [hh] using hle
  refine ⟨hmark, ?_, ?_⟩
  · intro trades
    have : ∀ (conn : DB), (∀ h, seenRowCount conn h ≤ 1) →
        ∀ h, seenRowCount (trades.foldl db_mark_trade_seen conn) h ≤ 1 := by
      induction trades with
      | nil => intro conn hc h; exact hc h
      | cons t rest ih =>
        intro conn hc h
        exact ih (db_mark_trade_seen conn t) (fun h' => hmark conn t h' (hc h')) h
    intro h
    refine this db_connect ?_ h
    intro h'
    simp [seenRowCount, db_connect]
  · intro conn t
    unfold db_mark_trade_seen
    simp only [List.filter_append, List.filter_filter]
    congr 1
    have hsing : List.filter
        (fun r => decide (r.tx_hash ≠ t.tx_hash))
        [(⟨t.tx_hash, t.timestamp, t.proxy_wallet, t.condition_id⟩ : SeenRow)] =
        [] := by
      simp
    have hdup : ∀ r : SeenRow,
        (decide (r.tx_hash ≠ t.tx_hash) && decide (r.tx_hash ≠ t.tx_hash)) =
          decide (r.tx_hash ≠ t.tx_hash) := fun r => Bool.and_self _
    simp only [hsing, hdup, List.append_nil]

/-- Witness for C4's preservation conjunct at a concrete ledger. -/
theorem seen_trades_at_most_once_witness :
    seenRowCount db_connect "0xtx1" ≤ 1 ∧
      seenRowCount (db_mark_trade_seen db_connect exampleTrade) "0xtx1" ≤ 1 :=
  ⟨by decide,
   seen_trades_at_most_once.1 db_connect exampleTrade "0xtx1" (by decide)⟩

/-- C6: for a fixed account and hit log, `db_count_wallet_hits` is
non-increasing in the window start, never negative, and the window-start
comparison is inclusive: a hit recorded at exactly the window start is
counted. -/
theorem count_hits_monotone_inclusive
    (conn : DB) (w : String) (t0 t1 : ℤ) (h01 : t0 ≤ t1) :
    db_count_wallet_hits conn w t1 ≤ db_count_wallet_hits conn w t0 ∧
    0 ≤ db_count_wallet_hits conn w t0 ∧
    db_count_wallet_hits (db_add_wallet_hit conn w t0) w t0 =
      db_count_wallet_hits conn w t0 + 1 := by
  refine ⟨?_, Nat.zero_le _, ?_⟩
  · unfold db_count_wallet_hits
    apply List.countP_mono_left
    intro x _ hpx
    simp only [Bool.and_eq_true, beq_iff_eq, decide_eq_true_eq] at hpx ⊢
    exact ⟨hpx.1, le_trans h01 hpx.2⟩
  · unfold db_count_wallet_hits db_add_wallet_hit
    simp [List.countP_append, List.countP_cons]

/-- Witness for C6 at a concrete hit log and window starts `0 ≤ 10`. -/
theorem count_hits_monotone_inclusive_witness :
    (0 : ℤ) ≤ 10 ∧
      (db_count_wallet_hits (db_add_wallet_hit db_connect "a" 5) "a" 10 ≤
          db_count_wallet_hits (db_add_wallet_hit db_connect "a" 5) "a" 0 ∧
        0 ≤ db_count_wallet_hits (db_add_wallet_hit db_connect "a" 5) "a" 0 ∧
        db_count_wallet_hits
            (db_add_wallet_hit (db_add_wallet_hit db_connect "a" 5) "a" 0)
            "a" 0 =
          db_count_wallet_hits (db_add_wallet_hit db_connect "a" 5) "a" 0 + 1) :=
  ⟨by decide,
   count_hits_monotone_inclusive (db_add_wallet_hit db_connect "a" 5) "a" 0 10
     (by decide)⟩

/-- C8: a trade with an empty transaction hash, an empty account identifier,
or a title rejected by the keyword policy is dropped before dedup, cluster
recording, enrichment and scoring: the pipeline step returns with the
database (in particular the dedup ledger) unchanged and no alert. -/
theorem process_one_drops_filtered
    (conn : DB) (env : FetchEnv) (now : ℤ) (t : Trade)
    (hdrop : t.tx_hash = "" ∨ t.proxy_wallet = "" ∨
      title_allowed t.title = false) :
    process_one conn env now t = Except.ok (conn, none) := by
  unfold process_one
  rcases hdrop with h | h | h
  · rw [if_pos (Or.inl h)]
  · rw [if_pos (Or.inr h)]
  · by_cases h1 : t.tx_hash = "" ∨ t.proxy_wallet = ""
    · rw [if_pos h1]
    · rw [if_neg h1, if_pos (by simp [h])]

/-- Witness for C8 on a trade whose title contains the excluded keyword. -/
theorem process_one_drops_filtered_witness :
    (sportsTrade.tx_hash = "" ∨ sportsTrade.proxy_wallet = "" ∨
      title_allowed sportsTrade.title = false) ∧
    process_one db_connect exampleEnv 1000 sportsTrade =
      Except.ok (db_connect, none) :=
  ⟨Or.inr (Or.inr rfl),
   process_one_drops_filtered db_connect exampleEnv 1000 sportsTrade
     (Or.inr (Or.inr rfl))⟩

/-- C3 (amended): the pipeline records the hit (at the trade's event
timestamp) and only then counts, so the count is taken over the log
including the new hit; but the window-start comparison is against the hit's
stored timestamp, so for an account's first qualifying trade the count is
`1` when the trade's timestamp is at least `now - CLUSTER_MINUTES*60` and
`0` when the trade is older than the window. -/
theorem cluster_hit_recorded_before_count
    (conn : DB) (w : String) (ts now : ℤ)
    (hfirst : ∀ h ∈ conn.wallet_hits, h.1 ≠ w) :
    (db_add_wallet_hit conn w ts).wallet_hits =
        conn.wallet_hits ++ [(w, ts)] ∧
    db_count_wallet_hits (db_add_wallet_hit conn w ts) w
        (now - CLUSTER_MINUTES * 60) =
      if now - CLUSTER_MINUTES * 60 ≤ ts then 1 else 0 := by
  refine ⟨rfl, ?_⟩
  unfold db_count_wallet_hits db_add_wallet_hit
  simp only [List.countP_append, List.countP_cons, List.countP_nil]
  have h0 : List.countP
      (fun h => h.1 == w && decide (now - CLUSTER_MINUTES * 60 ≤ h.2))
      conn.wallet_hits = 0 := by
    rw [List.countP_eq_zero]
    intro a ha
    simp only [Bool.and_eq_true, beq_iff_eq, decide_eq_true_eq, not_and]
    intro h1 _
    exact hfirst a ha h1
  rw [h0]
  by_cases hin : now - CLUSTER_MINUTES * 60 ≤ ts
  · simp [hin]
  · simp [hin]

/-- Witness for C3's amended theorem: an in-window first trade counts 1. -/
theorem cluster_hit_recorded_before_count_witness :
    (∀ h ∈ (db_connect : DB).wallet_hits, h.1 ≠ "a") ∧
    ((db_add_wallet_hit db_connect "a" 950).wallet_hits =
        (db_connect : DB).wallet_hits ++ [("a", 950)] ∧
      db_count_wallet_hits (db_add_wallet_hit db_connect "a" 950) "a"
          (1000 - CLUSTER_MINUTES * 60) =
        if (1000 : ℤ) - CLUSTER_MINUTES * 60 ≤ 950 then 1 else 0) :=
  ⟨by intro h hmem; simp [db_connect] at hmem,
   cluster_hit_recorded_before_count db_connect "a" 950 1000
     (by intro h hmem; simp [db_connect] at hmem)⟩

/-- C3 counterexample: an account's first qualifying trade whose event
timestamp lies before the window start (trade at time `0`, clock at
`1000000`) yields a cluster count of `0`, not `1`: the just-recorded hit is
not visible to the windowed count. -/
theorem cluster_count_first_trade_not_one :
    db_count_wallet_hits (db_add_wallet_hit db_connect "a" 0) "a"
        ((1000000 : ℤ) - CLUSTER_MINUTES * 60) = 0 := by
  decide

/-- C9 (amended): `est_cash` is the product `size × price` when both fields
convert; it is non-negative whenever both are non-negative; and a malformed
size or price yields `0` rather than an exception. -/
theorem est_cash_product_or_zero :
    (∀ (t : Trade) (s p : ℚ), t.size = Parsed.valid s →
        t.price = Parsed.valid p → t.est_cash = s * p) ∧
    (∀ (t : Trade) (s p : ℚ), t.size = Parsed.valid s →
        t.price = Parsed.valid p → 0 ≤ s → 0 ≤ p → 0 ≤ t.est_cash) ∧
    (∀ t : Trade, t.size = Parsed.invalid ∨ t.price = Parsed.invalid →
        t.est_cash = 0) := by
  have hprod : ∀ (t : Trade) (s p : ℚ), t.size = Parsed.valid s →
      t.price = Parsed.valid p → t.est_cash = s * p := by
    intro t s p hs hp
    unfold Trade.est_cash
    rw [hs, hp]
  refine ⟨hprod, ?_, ?_⟩
  · intro t s p hs hp h0s h0p
    rw [hprod t s p hs hp]
    exact mul_nonneg h0s h0p
  · intro t h
    unfold Trade.est_cash
    rcases hs : t.size with s | _ <;> rcases hp : t.price with p | _ <;>
      simp_all

/-- Witness for C9's amended theorem: the example trade's product, its
non-negativity, and the malformed trade's zero. -/
theorem est_cash_product_or_zero_witness :
    exampleTrade.est_cash = 1000 * 20 ∧
    (0 : ℚ) ≤ exampleTrade.est_cash ∧
    malformedTrade.est_cash = 0 :=
  ⟨est_cash_product_or_zero.1 exampleTrade 1000 20 rfl rfl,
   est_cash_product_or_zero.2.1 exampleTrade 1000 20 rfl rfl (by norm_num)
     (by norm_num),
   est_cash_product_or_zero.2.2 malformedTrade (Or.inl rfl)⟩

/-- C9 counterexample: a trade with well-formed negative size `-1000` and
price `1/2` has `est_cash = -500 < 0` — the derived attribute is not "never
negative". -/
theorem est_cash_can_be_negative :
    negTrade.est_cash = -500 ∧ negTrade.est_cash < 0 := by
  constructor <;> norm_num [Trade.est_cash, negTrade]

/-- C2 (amended): on a cache miss, if none of the three attribute fetches
raises, the three attributes are parsed independently — each from its own
response body only — a malformed or absent body yields `none` (unknown, not
zero) for just that attribute, and the profile is cached with whatever
succeeded. -/
theorem get_wallet_profile_refresh_independent
    (conn : DB) (w : String) (now : ℤ)
    (b₁ : TradedBody) (b₂ : ActivityAscBody) (b₃ : ActivityDescBody)
    (hmiss : db_get_wallet_cache conn w now (6 * 3600) = none) :
    get_wallet_profile conn ⟨Except.ok b₁, Except.ok b₂, Except.ok b₃⟩ now w =
      Except.ok
        (⟨w, parse_traded_markets b₁, parse_first_seen b₂,
          parse_recent_cash b₃⟩,
         db_set_wallet_cache conn
           ⟨w, parse_traded_markets b₁, parse_first_seen b₂,
            parse_recent_cash b₃⟩ now) ∧
    parse_traded_markets (some Parsed.invalid) = none ∧
    parse_first_seen (some [none]) = none ∧
    parse_recent_cash none = none := by
  refine ⟨?_, rfl, rfl, rfl⟩
  unfold get_wallet_profile
  rw [hmiss]
  rfl

/-- Witness for C2's amended theorem: on an empty database, a malformed
`/traded` body and an empty activity list yield unknowns while the turnover
succeeds, and the combined profile is cached. -/
theorem get_wallet_profile_refresh_independent_witness :
    db_get_wallet_cache db_connect "0xw" 50 (6 * 3600) = none ∧
    get_wallet_profile db_connect
        ⟨Except.ok (some Parsed.invalid), Except.ok (some []),
         Except.ok (some [some (Parsed.valid 7)])⟩ 50 "0xw" =
      Except.ok
        (⟨"0xw", parse_traded_markets (some Parsed.invalid),
          parse_first_seen (some []),
          parse_recent_cash (some [some (Parsed.valid 7)])⟩,
         db_set_wallet_cache db_connect
           ⟨"0xw", parse_traded_markets (some Parsed.invalid),
            parse_first_seen (some []),
            parse_recent_cash (some [some (Parsed.valid 7)])⟩ 50) :=
  ⟨rfl,
   (get_wallet_profile_refresh_independent db_connect "0xw" 50
       (some Parsed.invalid) (some []) (some [some (Parsed.valid 7)])
       rfl).1⟩

/-- C2 counterexample: a transport-level failure of a single fetch (the
`requests` exception propagates through the missing `try`) aborts the whole
refresh: with the `/traded` call raising — or with it succeeding and the
first-activity call raising — `get_wallet_profile` raises, the remaining
fetches never run, and nothing is cached (no database is returned at all),
contradicting "the profile is still cached with whatever succeeded". -/
theorem get_wallet_profile_fetch_failure_aborts :
    get_wallet_profile db_connect envHttpFail 50 "0xw" = Except.error () ∧
    get_wallet_profile db_connect envMidFail 50 "0xw" = Except.error () := by
  constructor <;> rfl

/-- The `INSERT OR REPLACE` of `db_set_wallet_cache` leaves exactly one row
for the written wallet, stamped with the write time. -/
lemma find?_set_wallet_cache (conn : DB) (p : WalletProfile) (now : ℤ) :
    (db_set_wallet_cache conn p now).wallet_cache.find?
        (fun r => r.1 == p.wallet) =
      some (p.wallet,
        ⟨p.traded_markets, p.first_seen_ts, p.recent_cash_24h, some now⟩) := by
  unfold db_set_wallet_cache
  rw [List.find?_append]
  have h0 : (conn.wallet_cache.filter fun r => r.1 ≠ p.wallet).find?
      (fun r => r.1 == p.wallet) = none := by
    rw [List.find?_eq_none]
    intro x hx
    have hne := (List.mem_filter.mp hx).2
    simp only [ne_eq, decide_eq_true_eq] at hne
    simp only [beq_iff_eq]
    exact hne
  rw [h0]
  simp [List.find?]

/-- C5: a cache row written at time `T` is returned unchanged — for every
enrichment environment, i.e. without consulting the external source — while
`now - T ≤ 6*3600` (the `max_age` used by `get_wallet_profile`); once
`now - T > 6*3600` the cached entry is ignored and a (non-raising) refresh
overwrites it with `cached_at = now`. -/
theorem wallet_cache_freshness :
    (∀ (conn : DB) (env : FetchEnv) (w : String) (row : CacheRow)
        (now T : ℤ),
        conn.wallet_cache.find? (fun r => r.1 == w) = some (w, row) →
        row.updated_at = some T →
        now - T ≤ 6 * 3600 →
        get_wallet_profile conn env now w =
          Except.ok
            (⟨w, row.traded_markets, row.first_seen_ts,
              row.recent_cash_24h⟩, conn)) ∧
    (∀ (conn : DB) (w : String) (row : CacheRow) (now T : ℤ)
        (b₁ : TradedBody) (b₂ : ActivityAscBody) (b₃ : ActivityDescBody),
        conn.wallet_cache.find? (fun r => r.1 == w) = some (w, row) →
        row.updated_at = some T →
        6 * 3600 < now - T →
        get_wallet_profile conn
            ⟨Except.ok b₁, Except.ok b₂, Except.ok b₃⟩ now w =
          Except.ok
            (⟨w, parse_traded_markets b₁, parse_first_seen b₂,
              parse_recent_cash b₃⟩,
             db_set_wallet_cache conn
               ⟨w, parse_traded_markets b₁, parse_first_seen b₂,
                parse_recent_cash b₃⟩ now) ∧
          (db_set_wallet_cache conn
              ⟨w, parse_traded_markets b₁, parse_first_seen b₂,
               parse_recent_cash b₃⟩ now).wallet_cache.find?
              (fun r => r.1 == w) =
            some (w,
              ⟨parse_traded_markets b₁, parse_first_seen b₂,
               parse_recent_cash b₃, some now⟩)) := by
  constructor
  · intro conn env w row now T hfind hupd hfresh
    unfold get_wallet_profile db_get_wallet_cache
    rw [hfind]
    dsimp only
    rw [hupd]
    dsimp only
    rw [if_pos hfresh]
  · intro conn w row now T b₁ b₂ b₃ hfind hupd hstale
    have hmiss : db_get_wallet_cache conn w now (6 * 3600) = none := by
      unfold db_get_wallet_cache
      rw [hfind]
      dsimp only
      rw [hupd]
      dsimp only
      rw [if_neg (not_le.mpr hstale)]
    constructor
    · unfold get_wallet_profile
      rw [hmiss]
      rfl
    · exact find?_set_wallet_cache conn
        ⟨w, parse_traded_markets b₁, parse_first_seen b₂,
         parse_recent_cash b₃⟩ now

/-- Witness for C5: the row of `cachedConn` (written at `T = 100`) is served
at `now = 200` even under a failing environment, and at `now = 100000` the
refresh overwrites it with `cached_at = 100000`. -/
theorem wallet_cache_freshness_witness :
    ((cachedConn : DB).wallet_cache.find? (fun r => r.1 == "0xw") =
        some ("0xw", ⟨some 9, some 86400, some 5, some 100⟩) ∧
      (200 : ℤ) - 100 ≤ 6 * 3600 ∧
      get_wallet_profile cachedConn envHttpFail 200 "0xw" =
        Except.ok (⟨"0xw", some 9, some 86400, some 5⟩, cachedConn)) ∧
    ((6 : ℤ) * 3600 < 100000 - 100 ∧
      get_wallet_profile cachedConn
          ⟨Except.ok (some (Parsed.valid 3)),
           Except.ok (some [some (Parsed.valid 86400)]),
           Except.ok (some [some (Parsed.valid 7)])⟩ 100000 "0xw" =
        Except.ok
          (⟨"0xw", parse_traded_markets (some (Parsed.valid 3)),
            parse_first_seen (some [some (Parsed.valid 86400)]),
            parse_recent_cash (some [some (Parsed.valid 7)])⟩,
           db_set_wallet_cache cachedConn
             ⟨"0xw", parse_traded_markets (some (Parsed.valid 3)),
              parse_first_seen (some [some (Parsed.valid 86400)]),
              parse_recent_cash (some [some (Parsed.valid 7)])⟩ 100000)) :=
  ⟨⟨rfl, by decide,
    wallet_cache_freshness.1 cachedConn envHttpFail "0xw"
      ⟨some 9, some 86400, some 5, some 100⟩ 200 100 rfl rfl (by decide)⟩,
   ⟨by decide,
    (wallet_cache_freshness.2 cachedConn "0xw"
        ⟨some 9, some 86400, some 5, some 100⟩ 100000 100
        (some (Parsed.valid 3)) (some [some (Parsed.valid 86400)])
        (some [some (Parsed.valid 7)]) rfl rfl (by decide)).1⟩⟩

/-- C1 (amended): `score_trade` is deterministic given the trade, the
profile, the cluster count, and the current wall-clock time: two invocations
with the same three inputs and the same clock reading return the same score
and the same ordered reasons. -/
theorem score_trade_deterministic_given_clock
    (t₁ t₂ : Trade) (p₁ p₂ : WalletProfile) (c₁ c₂ : ℕ) (n₁ n₂ : ℤ)
    (ht : t₁ = t₂) (hp : p₁ = p₂) (hc : c₁ = c₂) (hn : n₁ = n₂) :
    score_trade t₁ p₁ c₁ n₁ = score_trade t₂ p₂ c₂ n₂ := by
  subst ht; subst hp; subst hc; subst hn; rfl

/-- Witness for C1's amended theorem at the example scenario inputs. -/
theorem score_trade_deterministic_given_clock_witness :
    score_trade exampleTrade exampleProfile 2 exampleNow =
      score_trade exampleTrade exampleProfile 2 exampleNow :=
  score_trade_deterministic_given_clock exampleTrade exampleTrade
    exampleProfile exampleProfile 2 2 exampleNow exampleNow rfl rfl rfl rfl

/-- C1 counterexample: with the trade, profile and cluster count all fixed,
moving the wall clock 100 days forward changes the result (the freshness rule
reads `time.time()` through `days_since`), so `score_trade` is not
independent of the current time. -/
theorem score_trade_depends_on_clock :
    score_trade exampleTrade exampleProfile 2 exampleNow ≠
      score_trade exampleTrade exampleProfile 2 (exampleNow + 100 * 86400) := by
  norm_num [score_trade, days_since, exampleTrade, exampleProfile, exampleNow,
    Trade.est_cash, FRESH_DAYS, LOW_ACTIVITY_MARKETS, W_FRESH, W_LOW_ACTIVITY,
    W_BIG_TRADE, W_CLUSTER, BIG_TRADE_TIER_1, BIG_TRADE_TIER_2, CLUSTER_COUNT]

/-- C7: the spec's example scenario.  `size=1000, price=20` gives
`est_cash = 20000`; with 3 markets traded, first activity 5 days ago and
cluster count 2, the default weights yield score `3+2+2+2 = 9` with reasons
in the order fresh, low-activity, big-trade, cluster (the tier-2 bonus does
not apply since `20000 < 25000`), and `9` meets the alert threshold `6`. -/
theorem score_trade_example_scenario :
    score_trade exampleTrade exampleProfile 2 exampleNow =
      (9, [Reason.fresh_wallet 5, Reason.low_activity 3,
           Reason.big_trade 20000, Reason.cluster 2]) ∧
    ALERT_SCORE_THRESHOLD ≤
      (score_trade exampleTrade exampleProfile 2 exampleNow).1 := by
  constructor <;>
    norm_num [score_trade, days_since, exampleTrade, exampleProfile,
      exampleNow, Trade.est_cash, FRESH_DAYS, LOW_ACTIVITY_MARKETS, W_FRESH,
      W_LOW_ACTIVITY, W_BIG_TRADE, W_CLUSTER, BIG_TRADE_TIER_1,
      BIG_TRADE_TIER_2, CLUSTER_COUNT, ALERT_SCORE_THRESHOLD]

/-- C10: the score is non-negative, and it is `0` exactly when the reasons
list is empty: every triggered rule adds a positive weight and appends
exactly one reason tag. -/
theorem score_zero_iff_reasons_empty
    (t : Trade) (p : WalletProfile) (c : ℕ) (now : ℤ) :
    0 ≤ (score_trade t p c now).1 ∧
      ((score_trade t p c now).1 = 0 ↔ (score_trade t p c now).2 = []) := by
  simp only [score_trade]
  cases hfs : days_since p.first_seen_ts now <;>
    cases htm : p.traded_markets <;>
      split_ifs <;>
        simp_arith [W_FRESH, W_LOW_ACTIVITY, W_BIG_TRADE, W_CLUSTER] <;>
          split_ifs <;> simp_arith

end PolymarketMonitor
